import Mathlib

/-!
Shallow embedding of the distributed-training coordination layer of the
EEG-GAN repository (src/ddp_training.py and the ddp branch of
src/gan_training_main.py), together with theorems settling the frozen
claims about it.

Scalars (losses, parameters, optimizer state) are modelled as rationals;
tensors of two packed scalars as pairs; the per-rank view of a collective
all-reduce is modelled by giving the reducing function the list of every
rank's input, in rank order.  Side effects (checkpoint writes, console
prints, collective calls, process-group lifecycle steps) are modelled as
explicit event lists returned by the embedded functions.
-/

/-- A trainable model, identified by its parameter contents. -/
structure Model where
  params : List ℚ
deriving DecidableEq, Repr

/-- `torch.nn.parallel.DistributedDataParallel(model, device_ids=[rank])`:
the replication wrapper; `module` is the wrapped inner model. -/
structure DDPWrapper where
  module : Model
  device_ids : List Nat
deriving DecidableEq, Repr

/-- `wrapper.parameters()`: the parameters seen through the wrapper are
those of the inner module. -/
def DDPWrapper.parameters (w : DDPWrapper) : List ℚ :=
  w.module.params

/-- A reference to a model as handed around by the trainer: either the
replication wrapper itself or the unwrapped inner module. -/
inductive ModelRef
  | wrapped (w : DDPWrapper)
  | inner (m : Model)
deriving DecidableEq, Repr

/-- `optimizer.state_dict()` content: the momentum/accumulator state. -/
structure OptimizerStateDict where
  state : List ℚ
deriving DecidableEq, Repr

/-- `torch.optim.Adam`: parameter references, hyperparameters, and the
mutable optimizer state. -/
structure Adam where
  params : List ℚ
  lr : ℚ
  betas : ℚ × ℚ
  stateDict : OptimizerStateDict
deriving DecidableEq, Repr

/-- `torch.optim.Adam(params, lr=lr, betas=betas)`: a freshly constructed
optimizer carries empty state. -/
def Adam.new (params : List ℚ) (lr : ℚ) (betas : ℚ × ℚ) : Adam :=
  { params := params, lr := lr, betas := betas, stateDict := ⟨[]⟩ }

/-- `optimizer.state_dict()`. -/
def Adam.state_dict (o : Adam) : OptimizerStateDict :=
  o.stateDict

/-- `optimizer.load_state_dict(s)`. -/
def Adam.load_state_dict (o : Adam) (s : OptimizerStateDict) : Adam :=
  { o with stateDict := s }

/-- `DDPTrainer.__init__` line 30:
`self.world_size = opt['world_size'] if 'world_size' in opt else 1`,
with the options mapping modelled as an association list. -/
def init_world_size (opt : List (String × Nat)) : Nat :=
  match opt.lookup ("world_size") with
  | some w => w
  | none => 1

/-- The leader predicate used by every rank-gated side effect in
src/ddp_training.py: `self.rank == 0`. -/
def is_leader (rank : Nat) : Bool :=
  rank == 0

/-- The distributed semantics of `dist.all_reduce(t, op=SUM)` on the packed
two-scalar tensor `[d_loss, g_loss]`: given every rank's input pair, each
rank receives the componentwise sum. -/
def all_reduce_sum2 (inputs : List (ℚ × ℚ)) : ℚ × ℚ :=
  ((inputs.map Prod.fst).sum, (inputs.map Prod.snd).sum)

/-- The value `reduce_tensor` holds after lines 44-46 of
src/ddp_training.py: the packed tensor is summed across all ranks by one
all-reduce and then divided by `world_size`.  `losses` lists every rank's
`(d_loss, g_loss)` in rank order; the result is what each rank passes on
to the base `print_log`. -/
def print_log_reduced (world_size : Nat) (losses : List (ℚ × ℚ)) : ℚ × ℚ :=
  let summed := all_reduce_sum2 losses
  (summed.1 / (world_size : ℚ), summed.2 / (world_size : ℚ))

/-- The arithmetic mean of a list of per-rank scalars.  This definition
follows the spec's words ("the arithmetic mean across ranks") and is to be
compared with `print_log_reduced`, which follows the source. -/
def rankMean (xs : List ℚ) : ℚ :=
  xs.sum / (xs.length : ℚ)

/-- An action performed by `DDPTrainer.print_log` on one rank: either a
collective call or a console print. -/
inductive LogAction
  | allReduce (tensor : List ℚ)
  | printLine (d_loss g_loss : ℚ)
deriving DecidableEq, Repr

/-- Whether a log action is a collective call. -/
def LogAction.isCollective : LogAction → Bool
  | .allReduce _ => true
  | .printLine _ _ => false

/-- Modelled from the spec: the base trainer's `print_log`
(helpers/trainer.py, which is not under src/) emits the progress line for
the given losses; per the spec only the leader emits, to avoid duplicate
log lines, so the emission is gated on `is_leader`. -/
def base_print_log (rank : Nat) (d_loss g_loss : ℚ) : List LogAction :=
  if is_leader rank then [LogAction.printLine d_loss g_loss] else []

/-- The full action sequence of `DDPTrainer.print_log` (lines 41-48) as
executed by rank `rank`: the rank packs its own two losses into one
tensor, issues exactly one all-reduce with SUM — unconditionally, with no
rank gate — divides by `world_size`, and hands the reduced values to the
base `print_log`. -/
def print_log_rank (rank world_size : Nat) (losses : List (ℚ × ℚ)) :
    List LogAction :=
  let d_loss := (losses.getD rank (0, 0)).1
  let g_loss := (losses.getD rank (0, 0)).2
  let reduced := print_log_reduced world_size losses
  [LogAction.allReduce [d_loss, g_loss]] ++ base_print_log rank reduced.1 reduced.2

/-- The model references handed to one base checkpoint-store invocation. -/
structure CheckpointCall where
  generator : ModelRef
  discriminator : ModelRef
deriving DecidableEq, Repr

/-- `DDPTrainer.save_checkpoint` (lines 36-39): only rank 0 calls the base
`save_checkpoint`, handing it the unwrapped inner modules
`self.generator.module` and `self.discriminator.module`; every other rank
performs no call at all.  The result lists the base invocations made. -/
def save_checkpoint (rank : Nat) (generator discriminator : DDPWrapper) :
    List CheckpointCall :=
  if rank = 0 then
    [⟨ModelRef.inner generator.module, ModelRef.inner discriminator.module⟩]
  else []

/-- `DDPTrainer.manage_checkpoints` (lines 53-59): identical gating and
unwrapping as `save_checkpoint`. -/
def manage_checkpoints (rank : Nat) (generator discriminator : DDPWrapper) :
    List CheckpointCall :=
  if rank = 0 then
    [⟨ModelRef.inner generator.module, ModelRef.inner discriminator.module⟩]
  else []

/-- The operations of `DDPTrainer.set_ddp_framework` (lines 65-82), in
source order. -/
inductive FrameworkEvent
  | toDeviceGen
  | toDeviceDisc
  | wrapGen
  | wrapDisc
  | extractStateGen
  | extractStateDisc
  | newOptimizerGen
  | newOptimizerDisc
  | loadStateGen
  | loadStateDisc
deriving DecidableEq, Repr

/-- The trainer fields `set_ddp_framework` reads: the still-unwrapped
generator and discriminator, their current optimizers, the rank and the
Adam hyperparameters. -/
structure TrainerState where
  rank : Nat
  generator : Model
  discriminator : Model
  generator_optimizer : Adam
  discriminator_optimizer : Adam
  learning_rate : ℚ
  b1 : ℚ
  b2 : ℚ
deriving DecidableEq, Repr

/-- The trainer fields after `set_ddp_framework`, together with the trace
of operations it performed, in execution order. -/
structure SetDDPResult where
  generator : DDPWrapper
  discriminator : DDPWrapper
  generator_optimizer : Adam
  discriminator_optimizer : Adam
  trace : List FrameworkEvent
deriving DecidableEq, Repr

/-- `DDPTrainer.set_ddp_framework`, line by line: move both models to the
rank's device, wrap both in `DDP(_, device_ids=[self.rank])`, THEN extract
the optimizer state dicts, construct fresh Adam optimizers against the
wrapped parameters, and reload the extracted state into them. -/
def set_ddp_framework (t : TrainerState) : SetDDPResult :=
  let generator := DDPWrapper.mk t.generator [t.rank]
  let discriminator := DDPWrapper.mk t.discriminator [t.rank]
  let g_opt_state := t.generator_optimizer.state_dict
  let d_opt_state := t.discriminator_optimizer.state_dict
  let generator_optimizer :=
    Adam.new generator.parameters t.learning_rate (t.b1, t.b2)
  let discriminator_optimizer :=
    Adam.new discriminator.parameters t.learning_rate (t.b1, t.b2)
  { generator := generator
    discriminator := discriminator
    generator_optimizer := generator_optimizer.load_state_dict g_opt_state
    discriminator_optimizer := discriminator_optimizer.load_state_dict d_opt_state
    trace := [FrameworkEvent.toDeviceGen, FrameworkEvent.toDeviceDisc,
              FrameworkEvent.wrapGen, FrameworkEvent.wrapDisc,
              FrameworkEvent.extractStateGen, FrameworkEvent.extractStateDisc,
              FrameworkEvent.newOptimizerGen, FrameworkEvent.newOptimizerDisc,
              FrameworkEvent.loadStateGen, FrameworkEvent.loadStateDisc] }

/-- The externally visible steps of one worker's `run`
(src/ddp_training.py lines 85-129). -/
inductive RunEvent
  | initProcessGroup
  | setDevice
  | setDDPFramework
  | loadCheckpoint
  | trainingLoop
  | saveCheckpoint
  | destroyProcessGroup
deriving DecidableEq, Repr

/-- `_setup` (lines 92-99): sets the rendezvous environment and calls
`dist.init_process_group`, i.e. the process-group join. -/
def setup_events : List RunEvent :=
  [RunEvent.initProcessGroup]

/-- `_setup_training` (lines 102-114): set the device, wrap the models,
and — only when `use_checkpoint` is set — call `load_checkpoint`. -/
def setup_training_events (use_checkpoint : Bool) : List RunEvent :=
  [RunEvent.setDevice, RunEvent.setDDPFramework]
    ++ (if use_checkpoint then [RunEvent.loadCheckpoint] else [])

/-- `_ddp_training` (lines 117-129): run the training loop; when it raises
the exception propagates at once, otherwise rank 0 saves a checkpoint.
The boolean records whether the call returned normally. -/
def ddp_training_events (rank : Nat) (trainingThrows : Bool) :
    List RunEvent × Bool :=
  if trainingThrows then ([RunEvent.trainingLoop], false)
  else ([RunEvent.trainingLoop]
          ++ (if rank = 0 then [RunEvent.saveCheckpoint] else []), true)

/-- `run` (lines 85-89): `_setup`, `_setup_training`, `_ddp_training`,
then `dist.destroy_process_group()`.  There is no try/finally, so when
`_ddp_training` raises, the destroy statement is never reached and the
exception propagates (second component false). -/
def run_events (rank : Nat) (use_checkpoint trainingThrows : Bool) :
    List RunEvent × Bool :=
  let e₁ := setup_events
  let e₂ := setup_training_events use_checkpoint
  let e₃ := ddp_training_events rank trainingThrows
  if e₃.2 then (e₁ ++ e₂ ++ e₃.1 ++ [RunEvent.destroyProcessGroup], true)
  else (e₁ ++ e₂ ++ e₃.1, false)

/-- The steps of the ddp branch of `main`
(src/gan_training_main.py lines 275-281): construct the trainer, call
`trainer.load_checkpoint` when the load flag is set, then spawn the
`world_size` workers (each of which performs the process-group join). -/
inductive MainEvent
  | mkTrainer
  | loadCheckpoint
  | spawnWorkers
deriving DecidableEq, Repr

/-- Event order of `main`'s ddp branch. -/
def main_ddp_events (load_checkpoint : Bool) : List MainEvent :=
  [MainEvent.mkTrainer]
    ++ (if load_checkpoint then [MainEvent.loadCheckpoint] else [])
    ++ [MainEvent.spawnWorkers]

/-- Modelled from the spec: the CheckpointRecord persisted by the base
trainer's checkpoint store (helpers/trainer.py, which is not under src/):
unwrapped model parameters, optimizer state, generated samples, epoch and
timestamp. -/
structure CheckpointRecord where
  model_parameters : List ℚ
  optimizer_state : List ℚ
  generated_samples : List ℚ
  epoch : Nat
  timestamp : Nat
deriving DecidableEq, Repr

/-- Modelled from the spec: `CheckpointStore.save(path, record)` writes
one record per file into durable storage, modelled as an association list
from paths to records with the newest write shadowing older ones. -/
def checkpoint_save (store : List (String × CheckpointRecord))
    (path : String) (r : CheckpointRecord) :
    List (String × CheckpointRecord) :=
  (path, r) :: store

/-- Modelled from the spec: `CheckpointStore.load(path)` deserializes the
record at `path`, failing (none) when no record exists there. -/
def checkpoint_load (store : List (String × CheckpointRecord))
    (path : String) : Option CheckpointRecord :=
  store.lookup path

/-- A concrete model used by witnesses. -/
def sampleModel : Model :=
  ⟨[1, 2, 3]⟩

/-- A concrete replication wrapper used by witnesses. -/
def sampleWrapper : DDPWrapper :=
  ⟨sampleModel, [0]⟩

/-- A concrete pre-wrap trainer state used by the C3 counterexample. -/
def sampleTrainer : TrainerState :=
  { rank := 0
    generator := sampleModel
    discriminator := sampleModel
    generator_optimizer := { params := [1, 2, 3], lr := 1 / 10000
                             betas := (1 / 2, 999 / 1000), stateDict := ⟨[7, 8]⟩ }
    discriminator_optimizer := { params := [1, 2, 3], lr := 1 / 10000
                                 betas := (1 / 2, 999 / 1000), stateDict := ⟨[9]⟩ }
    learning_rate := 1 / 10000
    b1 := 1 / 2
    b2 := 999 / 1000 }

/-- A concrete non-trivial checkpoint record (epoch 3) used by the C8
witness. -/
def sampleRecord : CheckpointRecord :=
  { model_parameters := [1, 2, 3]
    optimizer_state := [4, 5]
    generated_samples := [6]
    epoch := 3
    timestamp := 20260101 }

lemma filter_range_leader (k : Nat) :
    (List.range k).filter is_leader = if 0 < k then [0] else [] := by
  induction k with
  | zero => simp
  | succ n ih =>
    rw [List.range_succ, List.filter_append, ih]
    rcases Nat.eq_zero_or_pos n with h | h
    · subst h; simp [is_leader]
    · have hn : n ≠ 0 := Nat.pos_iff_ne_zero.mp h
      simp [is_leader, hn, h]

lemma sum_save_checkpoint_lengths (k : Nat) (g d : DDPWrapper) :
    ((List.range k).map (fun r => (save_checkpoint r g d).length)).sum
      = if 0 < k then 1 else 0 := by
  induction k with
  | zero => simp
  | succ n ih =>
    rw [List.range_succ, List.map_append, List.sum_append, ih]
    rcases Nat.eq_zero_or_pos n with h | h
    · subst h; simp [save_checkpoint]
    · have hn : n ≠ 0 := Nat.pos_iff_ne_zero.mp h
      simp [save_checkpoint, hn, h]

lemma sum_manage_checkpoints_lengths (k : Nat) (g d : DDPWrapper) :
    ((List.range k).map (fun r => (manage_checkpoints r g d).length)).sum
      = if 0 < k then 1 else 0 := by
  induction k with
  | zero => simp
  | succ n ih =>
    rw [List.range_succ, List.map_append, List.sum_append, ih]
    rcases Nat.eq_zero_or_pos n with h | h
    · subst h; simp [manage_checkpoints]
    · have hn : n ≠ 0 := Nat.pos_iff_ne_zero.mp h
      simp [manage_checkpoints, hn, h]

/-- C1: for every world_size ≥ 1 and per-rank loss assignment, the metric
reduction of `DDPTrainer.print_log` yields on every rank the arithmetic
mean across ranks of each loss, and each rank issues exactly one
all-reduce with SUM, on the single packed two-scalar tensor. -/
theorem print_log_reduces_to_mean (world_size : Nat) (losses : List (ℚ × ℚ))
    (h1 : 1 ≤ world_size) (h2 : losses.length = world_size) :
    print_log_reduced world_size losses
      = (rankMean (losses.map Prod.fst), rankMean (losses.map Prod.snd))
    ∧ ∀ rank,
        (print_log_rank rank world_size losses).filter LogAction.isCollective
          = [LogAction.allReduce
              [(losses.getD rank (0, 0)).1, (losses.getD rank (0, 0)).2]] := by
  constructor
  · simp [print_log_reduced, all_reduce_sum2, rankMean, h2]
  · intro rank
    by_cases h : is_leader rank <;>
      simp [print_log_rank, base_print_log, LogAction.isCollective, h]

/-- C1 witness: world_size 2, rank-0 losses (1, 2), rank-1 losses (3, 4);
every rank obtains (2, 3). -/
theorem print_log_reduces_to_mean_witness :
    1 ≤ 2 ∧ ([((1 : ℚ), (2 : ℚ)), (3, 4)].length = 2)
    ∧ print_log_reduced 2 [((1 : ℚ), (2 : ℚ)), (3, 4)]
        = (rankMean ([((1 : ℚ), (2 : ℚ)), (3, 4)].map Prod.fst),
           rankMean ([((1 : ℚ), (2 : ℚ)), (3, 4)].map Prod.snd))
    ∧ print_log_reduced 2 [((1 : ℚ), (2 : ℚ)), (3, 4)] = (2, 3) := by
  refine ⟨by norm_num, by simp,
    (print_log_reduces_to_mean 2 _ (by norm_num) (by simp)).1, ?_⟩
  norm_num [print_log_reduced, all_reduce_sum2]

/-- C9: if every one of the world_size ≥ 1 ranks supplies the same loss
pair x, the reduce-and-average step of `print_log` returns x. -/
theorem metric_reduce_idempotent (x : ℚ × ℚ) (n : Nat) (h : 1 ≤ n) :
    print_log_reduced n (List.replicate n x) = x := by
  have hn : (n : ℚ) ≠ 0 := Nat.cast_ne_zero.mpr (by omega)
  simp [print_log_reduced, all_reduce_sum2, List.map_replicate,
    List.sum_replicate, nsmul_eq_mul, mul_div_cancel_left₀, hn]

/-- C9 witness: two ranks both supplying (5, 7) obtain (5, 7). -/
theorem metric_reduce_idempotent_witness :
    1 ≤ 2 ∧ print_log_reduced 2 (List.replicate 2 ((5 : ℚ), 7)) = (5, 7) :=
  ⟨by norm_num, metric_reduce_idempotent (5, 7) 2 (by norm_num)⟩

/-- C10: an options mapping without a world_size key initializes
world_size to 1, and the division in `print_log` is then the identity on
the all-reduced tensor. -/
theorem world_size_defaults_to_one (opt : List (String × Nat))
    (h : opt.lookup ("world_size") = none) (losses : List (ℚ × ℚ)) :
    init_world_size opt = 1
    ∧ print_log_reduced (init_world_size opt) losses
        = all_reduce_sum2 losses := by
  have h1 : init_world_size opt = 1 := by simp [init_world_size, h]
  exact ⟨h1, by simp [h1, print_log_reduced]⟩

/-- C10 witness: a one-key options mapping lacking world_size. -/
theorem world_size_defaults_to_one_witness :
    (([(("n_epochs"), 5)] : List (String × Nat)).lookup ("world_size") = none)
    ∧ init_world_size [(("n_epochs"), 5)] = 1
    ∧ print_log_reduced (init_world_size [(("n_epochs"), 5)]) [((1 : ℚ), 2)]
        = all_reduce_sum2 [((1 : ℚ), 2)] := by
  have h : (([(("n_epochs"), 5)] : List (String × Nat)).lookup ("world_size")
      = none) := by rfl
  exact ⟨h, (world_size_defaults_to_one _ h [((1 : ℚ), 2)]).1,
    (world_size_defaults_to_one _ h [((1 : ℚ), 2)]).2⟩

/-- C2: `is_leader` holds exactly for rank 0, exactly one rank of any
group of size ≥ 1 is leader, non-leader ranks make no checkpoint-store
call at all in `save_checkpoint` and `manage_checkpoints`, and across the
whole group each of the two gated operations performs exactly one store
call per logical event. -/
theorem leader_gate_unique_and_gates_writes (world_size : Nat)
    (h : 1 ≤ world_size) (g d : DDPWrapper) :
    (∀ rank, is_leader rank = true ↔ rank = 0)
    ∧ ((List.range world_size).filter is_leader).length = 1
    ∧ (∀ rank, rank ≠ 0 →
        save_checkpoint rank g d = [] ∧ manage_checkpoints rank g d = [])
    ∧ ((List.range world_size).map
        (fun r => (save_checkpoint r g d).length)).sum = 1
    ∧ ((List.range world_size).map
        (fun r => (manage_checkpoints r g d).length)).sum = 1 := by
  have hp : 0 < world_size := h
  refine ⟨?_, ?_, ?_, ?_, ?_⟩
  · intro rank; simp [is_leader]
  · rw [filter_range_leader]; simp [hp]
  · intro rank hr; simp [save_checkpoint, manage_checkpoints, hr]
  · rw [sum_save_checkpoint_lengths]; simp [hp]
  · rw [sum_manage_checkpoints_lengths]; simp [hp]

/-- C2 witness: a group of two ranks with concrete wrapped models. -/
theorem leader_gate_unique_and_gates_writes_witness :
    1 ≤ 2
    ∧ ((∀ rank, is_leader rank = true ↔ rank = 0)
      ∧ ((List.range 2).filter is_leader).length = 1
      ∧ (∀ rank, rank ≠ 0 →
          save_checkpoint rank sampleWrapper sampleWrapper = []
          ∧ manage_checkpoints rank sampleWrapper sampleWrapper = [])
      ∧ ((List.range 2).map
          (fun r => (save_checkpoint r sampleWrapper sampleWrapper).length)).sum = 1
      ∧ ((List.range 2).map
          (fun r => (manage_checkpoints r sampleWrapper sampleWrapper).length)).sum = 1) :=
  ⟨by norm_num,
    leader_gate_unique_and_gates_writes 2 (by norm_num) sampleWrapper sampleWrapper⟩

/-- C6: on every logging event each rank issues exactly one collective
call — the metric all-reduce, unconditionally, with no leader gate — and
only the subsequent print of the reduced values is leader-gated. -/
theorem print_log_collective_not_gated (rank world_size : Nat)
    (losses : List (ℚ × ℚ)) :
    ((print_log_rank rank world_size losses).filter
        LogAction.isCollective).length = 1
    ∧ ((print_log_rank rank world_size losses).filter
        (fun a => ! LogAction.isCollective a)).length
      = if is_leader rank then 1 else 0 := by
  by_cases h : is_leader rank <;>
    simp [print_log_rank, base_print_log, LogAction.isCollective, h]

/-- C7: every model reference handed to the checkpoint store by
`save_checkpoint` or `manage_checkpoints` is the unwrapped inner module of
the respective replication wrapper, never the wrapper itself. -/
theorem checkpoint_refs_unwrapped (rank : Nat) (g d : DDPWrapper)
    (c : CheckpointCall)
    (hc : c ∈ save_checkpoint rank g d ++ manage_checkpoints rank g d) :
    c.generator = ModelRef.inner g.module
    ∧ c.discriminator = ModelRef.inner d.module := by
  by_cases h : rank = 0
  · simp [save_checkpoint, manage_checkpoints, h] at hc
    subst hc
    exact ⟨rfl, rfl⟩
  · simp [save_checkpoint, manage_checkpoints, h] at hc

/-- C7 witness: the single call made on rank 0 carries the inner
modules. -/
theorem checkpoint_refs_unwrapped_witness :
    ((⟨ModelRef.inner sampleModel, ModelRef.inner sampleModel⟩ : CheckpointCall)
        ∈ save_checkpoint 0 sampleWrapper sampleWrapper
            ++ manage_checkpoints 0 sampleWrapper sampleWrapper)
    ∧ ((⟨ModelRef.inner sampleModel, ModelRef.inner sampleModel⟩ :
          CheckpointCall).generator = ModelRef.inner sampleWrapper.module
      ∧ (⟨ModelRef.inner sampleModel, ModelRef.inner sampleModel⟩ :
          CheckpointCall).discriminator = ModelRef.inner sampleWrapper.module) := by
  have hm : ((⟨ModelRef.inner sampleModel, ModelRef.inner sampleModel⟩ :
        CheckpointCall)
      ∈ save_checkpoint 0 sampleWrapper sampleWrapper
          ++ manage_checkpoints 0 sampleWrapper sampleWrapper) := by
    simp [save_checkpoint, manage_checkpoints, sampleWrapper]
  exact ⟨hm, checkpoint_refs_unwrapped 0 sampleWrapper sampleWrapper _ hm⟩

/-- C8: the checkpoint store round-trips: loading the path just saved
returns exactly the saved record, for any record with epoch > 0. -/
theorem checkpoint_round_trip (store : List (String × CheckpointRecord))
    (path : String) (r : CheckpointRecord) (h : 0 < r.epoch) :
    checkpoint_load (checkpoint_save store path r) path = some r := by
  simp [checkpoint_save, checkpoint_load, List.lookup]

/-- C8 witness: a concrete record with epoch 3 round-trips. -/
theorem checkpoint_round_trip_witness :
    0 < sampleRecord.epoch
    ∧ checkpoint_load (checkpoint_save [] ("ckpt.pt") sampleRecord) ("ckpt.pt")
        = some sampleRecord :=
  ⟨by decide, checkpoint_round_trip [] ("ckpt.pt") sampleRecord (by decide)⟩

lemma set_ddp_framework_trace (t : TrainerState) :
    (set_ddp_framework t).trace
      = [FrameworkEvent.toDeviceGen, FrameworkEvent.toDeviceDisc,
         FrameworkEvent.wrapGen, FrameworkEvent.wrapDisc,
         FrameworkEvent.extractStateGen, FrameworkEvent.extractStateDisc,
         FrameworkEvent.newOptimizerGen, FrameworkEvent.newOptimizerDisc,
         FrameworkEvent.loadStateGen, FrameworkEvent.loadStateDisc] :=
  rfl

/-- C3 counterexample: in `set_ddp_framework` the optimizer state dicts
are NOT extracted before the models are wrapped — at a concrete trainer
state, the extraction events follow the wrap events in the executed
trace. -/
theorem extract_before_wrap_false :
    ¬ ((set_ddp_framework sampleTrainer).trace.indexOf
          FrameworkEvent.extractStateGen
        < (set_ddp_framework sampleTrainer).trace.indexOf
          FrameworkEvent.wrapGen
      ∧ (set_ddp_framework sampleTrainer).trace.indexOf
          FrameworkEvent.extractStateDisc
        < (set_ddp_framework sampleTrainer).trace.indexOf
          FrameworkEvent.wrapDisc) := by
  decide

/-- C3 (amended): `set_ddp_framework` wraps the models FIRST and then
extracts the optimizer state dicts (wrapping does not alter them),
constructs fresh Adam optimizers against the wrapped parameters, and
reloads the extracted state, so the post-wrap optimizer state equals the
pre-wrap optimizer state. -/
theorem set_ddp_framework_preserves_state (t : TrainerState) :
    ((set_ddp_framework t).generator_optimizer.state_dict
        = t.generator_optimizer.state_dict
      ∧ (set_ddp_framework t).discriminator_optimizer.state_dict
        = t.discriminator_optimizer.state_dict)
    ∧ ((set_ddp_framework t).generator_optimizer.params
        = (set_ddp_framework t).generator.parameters
      ∧ (set_ddp_framework t).discriminator_optimizer.params
        = (set_ddp_framework t).discriminator.parameters)
    ∧ ((set_ddp_framework t).trace.indexOf FrameworkEvent.wrapGen
        < (set_ddp_framework t).trace.indexOf FrameworkEvent.extractStateGen
      ∧ (set_ddp_framework t).trace.indexOf FrameworkEvent.extractStateGen
        < (set_ddp_framework t).trace.indexOf FrameworkEvent.newOptimizerGen
      ∧ (set_ddp_framework t).trace.indexOf FrameworkEvent.newOptimizerGen
        < (set_ddp_framework t).trace.indexOf FrameworkEvent.loadStateGen) := by
  refine ⟨⟨rfl, rfl⟩, ⟨rfl, rfl⟩, ?_, ?_, ?_⟩ <;>
    rw [set_ddp_framework_trace] <;> decide

/-- C4 counterexample: with the training phase raising, the worker trace
of `run` contains no `destroy_process_group` — there is no try/finally in
`run`, so teardown is skipped on abnormal exit. -/
theorem run_teardown_skipped_on_throw :
    RunEvent.destroyProcessGroup ∉ (run_events 0 false true).1 := by
  decide

/-- C4 (amended): `dist.destroy_process_group` executes whenever the
training phase completes normally, but is skipped when training raises,
the exception propagating out of `run`. -/
theorem run_teardown_normal_vs_abnormal (rank : Nat) (use_checkpoint : Bool) :
    (RunEvent.destroyProcessGroup ∈ (run_events rank use_checkpoint false).1
      ∧ (run_events rank use_checkpoint false).2 = true)
    ∧ (RunEvent.destroyProcessGroup ∉ (run_events rank use_checkpoint true).1
      ∧ (run_events rank use_checkpoint true).2 = false) := by
  by_cases h : rank = 0 <;> cases use_checkpoint <;>
    simp [run_events, setup_events, setup_training_events,
      ddp_training_events, h]

lemma run_events_trace_with_checkpoint (rank : Nat) (throws : Bool) :
    (run_events rank true throws).1
      = RunEvent.initProcessGroup :: RunEvent.setDevice
          :: RunEvent.setDDPFramework :: RunEvent.loadCheckpoint
          :: RunEvent.trainingLoop
          :: (if throws then []
              else (if rank = 0 then [RunEvent.saveCheckpoint] else [])
                ++ [RunEvent.destroyProcessGroup]) := by
  cases throws <;> by_cases h : rank = 0 <;>
    simp [run_events, setup_events, setup_training_events,
      ddp_training_events, h]

/-- C5 counterexample: in a worker's execution of `run` with checkpoint
resume enabled, the `load_checkpoint` call does NOT precede the
process-group join — `_setup` runs `init_process_group` first and
`_setup_training` loads the checkpoint afterwards. -/
theorem load_checkpoint_before_join_false :
    ¬ ((run_events 0 true false).1.indexOf RunEvent.loadCheckpoint
        < (run_events 0 true false).1.indexOf RunEvent.initProcessGroup) := by
  decide

/-- C5 (amended): in every worker's execution of `run` with checkpoint
resume enabled, the process-group join precedes the `load_checkpoint`
call, which itself precedes the training phase and is executed by every
rank; separately, in `main`'s ddp branch the trainer-level checkpoint load
precedes the spawning of the workers (and hence every join). -/
theorem run_load_checkpoint_after_join (rank : Nat) (throws : Bool) :
    ((run_events rank true throws).1.indexOf RunEvent.initProcessGroup
      < (run_events rank true throws).1.indexOf RunEvent.loadCheckpoint)
    ∧ RunEvent.loadCheckpoint ∈ (run_events rank true throws).1
    ∧ ((run_events rank true throws).1.indexOf RunEvent.loadCheckpoint
      < (run_events rank true throws).1.indexOf RunEvent.trainingLoop)
    ∧ ((main_ddp_events true).indexOf MainEvent.loadCheckpoint
      < (main_ddp_events true).indexOf MainEvent.spawnWorkers) := by
  rw [run_events_trace_with_checkpoint]
  refine ⟨?_, ?_, ?_, ?_⟩
  · simp
  · simp
  · simp
  · decide
